import Mathlib

/-!
Shallow embedding of the core services of the Voice-platform repository
(`src/services`): the Session Manager, Config Manager, Policy Planner,
Data Adapter and the Pipeline Orchestrator's `process_text` flow.
All definitions are translated from the Python source; machine-level
details that cannot influence the verified properties (wall-clock
timestamps, logging text) are threaded as explicit parameters or omitted
where they are pure side channels.
-/

namespace VoicePlatform

/-- A scalar JSON-like value, standing in for Python `Any` in the
dictionaries carried around by the services (entity values, metadata).
`null` is Python `None`. -/
inductive JVal where
  | null : JVal
  | s (v : String) : JVal
  | n (v : Int) : JVal
  | b (v : Bool) : JVal
deriving DecidableEq, Repr

/-- Association-list update with shadowing: the new binding is consed on,
and `List.lookup` finds it first (models a dict/keyed-store write). -/
def insertA {α : Type} (k : String) (v : α) (l : List (String × α)) :
    List (String × α) :=
  (k, v) :: l

/-! ## Session Manager (`src/services/session_manager.py`)

Sessions live in a TTL key-value store (Redis).  `add_message` is a
read-modify-write: fetch the session, append the message, truncate the
history to the last 50 entries, bump `message_count`, write back.
`get_history` fetches the session and applies `history[-limit:]` when
`limit` is truthy.  TTL expiry is not modelled (a session is simply
present or absent in the store). -/

/-- A message stored in a session's history (`add_message` lines 161-167).
The ISO timestamp string is passed in by the caller in this embedding. -/
structure StoredMessage where
  role : String
  content : String
  intent : Option String
  entities : List (String × JVal)
  timestamp : String
deriving DecidableEq, Repr

/-- Session record as stored in Redis (`create_session` lines 55-66). -/
structure SessionData where
  session_id : String
  user_id : String
  tenant_id : String
  domain : String
  created_at : String
  updated_at : String
  message_count : Nat
  context : List (String × JVal)
  history : List StoredMessage
  metadata : List (String × JVal)
deriving DecidableEq, Repr

/-- The backing session store: keyed by session id. -/
abbrev SessionStore : Type := List (String × SessionData)

/-- One `add_message` call's arguments (`now` is the wall-clock ISO
timestamp the Python code reads from `datetime.utcnow()`). -/
structure AddOp where
  session_id : String
  role : String
  content : String
  intent : Option String
  entities : Option (List (String × JVal))
  now : String
deriving DecidableEq, Repr

/-- The message dict built by `add_message` (lines 161-167). -/
def msgOf (op : AddOp) : StoredMessage :=
  { role := op.role
    content := op.content
    intent := op.intent
    entities := op.entities.getD []
    timestamp := op.now }

/-- The session update performed by `add_message` (lines 161-179): append
the message, keep the last 50 history entries (`history[-50:]`), bump
`message_count` and refresh `updated_at`. -/
def updSession (s : SessionData) (op : AddOp) : SessionData :=
  let h1 := s.history ++ [msgOf op]
  let h2 := if 50 < h1.length then h1.drop (h1.length - 50) else h1
  { s with
    history := h2
    message_count := s.message_count + 1
    updated_at := op.now }

/-- `SessionManager.add_message` (lines 134-186): fetch the session
(returning `False` and leaving the store untouched when it is absent),
apply `updSession` and write the result back. -/
def add_message (store : SessionStore) (op : AddOp) : Bool × SessionStore :=
  match List.lookup op.session_id store with
  | none => (false, store)
  | some s => (true, insertA op.session_id (updSession s op) store)

/-- Apply a sequence of `add_message` calls, keeping only the store. -/
def applyAdds (ops : List AddOp) (store : SessionStore) : SessionStore :=
  ops.foldl (fun st op => (add_message st op).2) store

/-- Python suffix slice `l[i:]` for an integer index `i` (negative
indices count from the end and clamp at 0). -/
def pySliceFrom {α : Type} (l : List α) (i : Int) : List α :=
  if 0 ≤ i then l.drop i.toNat else l.drop ((l.length : Int) + i).toNat

/-- `SessionManager.get_history` (lines 188-217): absent session gives
`[]`; a truthy `limit` (not `None`, not `0`) applies `history[-limit:]`. -/
def get_history (store : SessionStore) (session_id : String)
    (limit : Option Int) : List StoredMessage :=
  match List.lookup session_id store with
  | none => []
  | some s =>
    match limit with
    | none => s.history
    | some l => if l = 0 then s.history else pySliceFrom s.history (-l)

end VoicePlatform

namespace VoicePlatform

/-! Concrete session data used by the witnesses below. -/

def sampleSession : SessionData :=
  { session_id := "s1", user_id := "u1", tenant_id := "t1", domain := "d"
    created_at := "T0", updated_at := "T0", message_count := 0
    context := [], history := [], metadata := [] }

def sampleOp : AddOp :=
  { session_id := "s1", role := "user", content := "hello"
    intent := some "greet", entities := none, now := "T1" }

/-- `updSession` always leaves at most 50 history entries. -/
theorem updSession_history_le (s : SessionData) (op : AddOp) :
    (updSession s op).history.length ≤ 50 := by
  unfold updSession
  simp only
  split
  · simp only [List.length_drop]
    omega
  · next h =>
    simp only [List.length_append, List.length_singleton] at h ⊢
    omega

/-- One `add_message` call caps the updated session's history at 50. -/
theorem add_message_history_le (st : SessionStore) (op : AddOp) :
    ∀ p ∈ (add_message st op).2, p.2.history.length ≤ 50 ∨ p ∈ st := by
  intro p hp
  unfold add_message at hp
  cases hL : List.lookup op.session_id st with
  | none => simp [hL] at hp; exact Or.inr hp
  | some s =>
    simp only [hL, insertA] at hp
    rcases List.mem_cons.mp hp with h | h
    · left
      subst h
      exact updSession_history_le s op
    · exact Or.inr h

/-- `add_message` preserves the 50-bounded-history invariant. -/
theorem add_message_preserves_inv (st : SessionStore) (op : AddOp)
    (hinv : ∀ p ∈ st, p.2.history.length ≤ 50) :
    ∀ p ∈ (add_message st op).2, p.2.history.length ≤ 50 := by
  intro p hp
  rcases add_message_history_le st op p hp with h | h
  · exact h
  · exact hinv p h

/-- A successful `add_message` leaves the appended message as the last
element of the stored history. -/
theorem add_message_last (st : SessionStore) (op : AddOp)
    (hok : (add_message st op).1 = true) :
    ∃ s', List.lookup op.session_id (add_message st op).2 = some s' ∧
      s'.history.getLast? = some (msgOf op) := by
  unfold add_message at hok ⊢
  cases hL : List.lookup op.session_id st with
  | none => simp [hL] at hok
  | some s =>
    simp only [hL, insertA]
    refine ⟨updSession s op, by simp [List.lookup], ?_⟩
    unfold updSession
    simp only
    split
    · next hlen =>
      have hle : (s.history ++ [msgOf op]).length - 50 ≤ s.history.length := by
        simp only [List.length_append, List.length_singleton] at hlen ⊢
        omega
      rw [List.drop_append_of_le_length hle, List.getLast?_concat]
    · exact List.getLast?_concat _

/-- Claim C7: the stored history length never exceeds 50 after any
sequence of `add_message` calls on a store satisfying the bound, with
FIFO truncation keeping the most recently appended message as the last
element of the stored history. -/
theorem add_message_history_bounded_fifo (store : SessionStore)
    (hinv : ∀ p ∈ store, p.2.history.length ≤ 50) (ops : List AddOp) :
    (∀ p ∈ applyAdds ops store, p.2.history.length ≤ 50) ∧
    (∀ (st : SessionStore) (op : AddOp), (add_message st op).1 = true →
      ∃ s', List.lookup op.session_id (add_message st op).2 = some s' ∧
        s'.history.getLast? = some (msgOf op)) := by
  constructor
  · induction ops generalizing store with
    | nil => exact hinv
    | cons op rest ih =>
      intro p hp
      exact ih _ (add_message_preserves_inv store op hinv) p hp
  · exact add_message_last

/-- Witness for C7 at the concrete store `[("s1", sampleSession)]` and a
single append. -/
theorem add_message_history_bounded_fifo_witness :
    (∀ p ∈ [("s1", sampleSession)], p.2.history.length ≤ 50) ∧
    ((∀ p ∈ applyAdds [sampleOp] [("s1", sampleSession)],
        p.2.history.length ≤ 50) ∧
      (∀ (st : SessionStore) (op : AddOp), (add_message st op).1 = true →
        ∃ s', List.lookup op.session_id (add_message st op).2 = some s' ∧
          s'.history.getLast? = some (msgOf op))) :=
  ⟨by decide,
    add_message_history_bounded_fifo [("s1", sampleSession)] (by decide)
      [sampleOp]⟩

/-- Claim C10: `add_message` on a session id absent from the backing
store returns `False` and leaves the whole store unchanged. -/
theorem add_message_missing_session (store : SessionStore) (op : AddOp)
    (h : List.lookup op.session_id store = none) :
    add_message store op = (false, store) := by
  unfold add_message
  rw [h]

/-- Witness for C10 on the empty store. -/
theorem add_message_missing_session_witness :
    List.lookup sampleOp.session_id ([] : SessionStore) = none ∧
    add_message [] sampleOp = (false, []) :=
  ⟨rfl, add_message_missing_session [] sampleOp rfl⟩

/-- Session store used by the C8 counterexample and witness. -/
def c8Session : SessionData := { sampleSession with history := [msgOf sampleOp] }

/-- Store holding `c8Session` under id `"s1"`. -/
def c8Store : SessionStore := [("s1", c8Session)]

/-- Counterexample to C8 as stated: for the existing session `"s1"`
holding one message, `get_history` with `limit = 0` returns the whole
history, whose length 1 is not at most the limit 0 (Python's `if limit:`
treats 0 as falsy and skips the slicing). -/
theorem get_history_limit_zero_cex :
    get_history c8Store "s1" (some 0) = [msgOf sampleOp] ∧
    ¬ ((get_history c8Store "s1" (some 0)).length ≤ 0) := by
  constructor
  · rfl
  · decide

/-- Claim C8 (amended to positive limits): for every existing session and
every positive `limit`, `get_history` returns a suffix of the stored
history (hence ordered, most-recent-last) of length at most `limit`. -/
theorem get_history_suffix_bounded (store : SessionStore) (sid : String)
    (s : SessionData) (n : Int) (hs : List.lookup sid store = some s)
    (hn : 0 < n) :
    get_history store sid (some n) <:+ s.history ∧
    ((get_history store sid (some n)).length : Int) ≤ n := by
  have hne : ¬ (n = 0) := by omega
  have hneg : ¬ (0 ≤ -n) := by omega
  unfold get_history
  rw [hs]
  simp only [hne, if_false, pySliceFrom, hneg, if_false]
  constructor
  · exact List.drop_suffix _ _
  · rw [List.length_drop]
    omega

/-- Witness for the amended C8 at `c8Store`, session `"s1"`, limit 1. -/
theorem get_history_suffix_bounded_witness :
    (List.lookup "s1" c8Store = some c8Session ∧ (0 : Int) < 1) ∧
    (get_history c8Store "s1" (some 1) <:+ c8Session.history ∧
      ((get_history c8Store "s1" (some 1)).length : Int) ≤ 1) :=
  ⟨⟨rfl, by decide⟩, get_history_suffix_bounded c8Store "s1" c8Session 1 rfl
    (by decide)⟩

/-! ## Config data model (`src/services/config_manager.py`, lines 17-46)

Pydantic schemas for domain definitions.  `score_threshold` is a Python
float carrying plain decimal literals; it is embedded as a rational. -/

/-- `IntentConfig` (lines 17-25). -/
structure IntentConfig where
  name : String
  entities : List String
  api_endpoint : Option String
  api_method : String
  api_headers : List (String × String)
  response_template : Option String
  requires_auth : Bool
deriving DecidableEq, Repr

/-- `ContextRetrievalConfig` (lines 28-33). -/
structure ContextRetrievalConfig where
  enabled : Bool
  collection_name : Option String
  top_k : Int
  score_threshold : Rat
deriving DecidableEq, Repr

/-- `DomainConfig` (lines 36-46). -/
structure DomainConfig where
  domain_name : String
  description : Option String
  intents : List IntentConfig
  context_retrieval : ContextRetrievalConfig
  response_templates : List (String × String)
  system_prompt : Option String
  fallback_response : String
  max_turns : Int
  metadata : List (String × JVal)
deriving DecidableEq, Repr

/-- Result of `ContentModerator.moderate` as consumed by the orchestrator
and the policy planner: the `is_safe` flag and flagged categories. -/
structure ModerationResult where
  is_safe : Bool
  flagged_categories : List String
deriving DecidableEq, Repr

/-! ## Policy Planner (`src/services/policy_planner.py`)

`validate_plan` runs four checks, concatenates their violations and is
valid iff none has severity `"error"`.  The rate-limit counter is the
planner's only mutable state and is threaded explicitly. -/

/-- `PolicyViolationType` enum (lines 13-19). -/
inductive PolicyViolationType where
  | unauthorized
  | rate_limit
  | data_validation
  | compliance
  | safety
deriving DecidableEq, Repr

/-- `PolicyViolation` (lines 22-33); `severity` is the literal string
`"error"` or `"warning"` the Python code stores. -/
structure PolicyViolation where
  violation_type : PolicyViolationType
  message : String
  severity : String
deriving DecidableEq, Repr

/-- The `PolicyPlanner` object: configuration plus the in-memory
`request_counts` rate-limit counters (lines 42-63). -/
structure PolicyPlanner where
  rate_limit_per_minute : Nat
  rate_limit_per_hour : Nat
  require_moderation : Bool
  request_counts : List (String × Nat)
deriving DecidableEq, Repr

/-- An action entry of a plan.  The orchestrator builds the plain dict
`{"type": ..., "name": ..., "config": ...}` (orchestrator lines 260-264);
other callers may pass dicts that carry a top-level `requires_auth` key,
so every key the planner reads is optional here (`dict.get` semantics). -/
structure ActionDict where
  type? : Option String
  name? : Option String
  config? : Option IntentConfig
  requires_auth? : Option Bool
deriving DecidableEq, Repr

/-- An action plan dict as validated by the planner (`plan.get` keys
`intent`, `entities`, `actions`). -/
structure Plan where
  intent : Option String
  entities : List (String × JVal)
  requires_api_call : Bool
  actions : List ActionDict
deriving DecidableEq, Repr

/-- The `context` dict passed to `validate_plan`: the keys the checks
read via `context.get`. -/
structure ValidationContext where
  moderation_result? : Option ModerationResult
  auth_token? : Option String
  session_id? : Option String
deriving DecidableEq, Repr

/-- Python truthiness of an optional string (`if context.get("auth_token")`:
`None` and the empty string are falsy). -/
def strTruthy (o : Option String) : Bool :=
  match o with
  | none => false
  | some s => !(s == "")

/-- Python truthiness of an optional bool (`if action.get("requires_auth")`). -/
def boolTruthy (o : Option Bool) : Bool :=
  match o with
  | none => false
  | some b => b

/-- Python `str(x)` of an optional string, as used in the f-string
message for a missing action name (`action.get('name')` is `None`). -/
def optStrRepr (o : Option String) : String :=
  match o with
  | none => "None"
  | some s => s

/-- `_check_rate_limits` (lines 121-143): compare the tenant's counter
with the per-minute ceiling; below the ceiling the counter is bumped,
at or above it an error violation is emitted. -/
def check_rate_limits (pp : PolicyPlanner) (tenant_id : String) :
    List PolicyViolation × PolicyPlanner :=
  let current := (List.lookup tenant_id pp.request_counts).getD 0
  if pp.rate_limit_per_minute ≤ current then
    ([⟨.rate_limit, "Rate limit exceeded", "error"⟩], pp)
  else
    ([], { pp with request_counts := insertA tenant_id (current + 1) pp.request_counts })

/-- `_check_authorization` (lines 145-170): each action whose top-level
`requires_auth` entry is truthy needs a truthy `auth_token` in context. -/
def check_authorization (plan : Plan) (context : ValidationContext) :
    List PolicyViolation :=
  plan.actions.foldr
    (fun action acc =>
      if boolTruthy action.requires_auth? ∧ ¬ strTruthy context.auth_token? then
        ⟨.unauthorized,
          "Action '" ++ optStrRepr action.name? ++ "' requires authentication",
          "error"⟩ :: acc
      else acc) []

/-- `_validate_data` (lines 172-198): a falsy `intent` is an error; every
entity bound to `None` or `""` is a warning. -/
def validate_data (plan : Plan) : List PolicyViolation :=
  (if strTruthy plan.intent then [] else
    [⟨.data_validation, "Missing required field: intent", "error"⟩]) ++
  plan.entities.foldr
    (fun kv acc =>
      if kv.2 = JVal.null ∨ kv.2 = JVal.s "" then
        ⟨.data_validation, "Invalid entity value for '" ++ kv.1 ++ "'",
          "warning"⟩ :: acc
      else acc) []

/-- `_check_safety` (lines 200-223): a moderation result in context with
`is_safe` false is an error listing the flagged categories; a missing
moderation result defaults to safe. -/
def check_safety (context : ValidationContext) : List PolicyViolation :=
  match context.moderation_result? with
  | none => []
  | some m =>
    if m.is_safe then []
    else
      [⟨.safety,
        "Content flagged for: " ++ String.intercalate ", " m.flagged_categories,
        "error"⟩]

/-- `PolicyPlanner.validate_plan` (lines 65-119): run the four checks in
order, concatenate their violations, and report validity iff no
violation carries severity `"error"`. -/
def validate_plan (pp : PolicyPlanner) (tenant_id : String) (plan : Plan)
    (context : ValidationContext) :
    Bool × List PolicyViolation × PolicyPlanner :=
  let (rate_violations, pp') := check_rate_limits pp tenant_id
  let auth_violations := check_authorization plan context
  let data_violations := validate_data plan
  let safety_violations :=
    if pp.require_moderation then check_safety context else []
  let violations :=
    rate_violations ++ auth_violations ++ data_violations ++ safety_violations
  let is_valid := !(violations.any (fun v => v.severity == "error"))
  (is_valid, violations, pp')

/-- Claim C4: `validate_plan` reports `is_valid = true` exactly when no
returned violation has severity `"error"`; warning-severity violations
are returned in the list but can never make `is_valid` false. -/
theorem validate_plan_valid_iff_no_error (pp : PolicyPlanner)
    (tenant_id : String) (plan : Plan) (context : ValidationContext) :
    (validate_plan pp tenant_id plan context).1 = true ↔
      ∀ v ∈ (validate_plan pp tenant_id plan context).2.1,
        v.severity ≠ "error" := by
  unfold validate_plan
  simp only [Bool.not_eq_true', List.any_eq_false, beq_iff_eq]

/-- `BUILD_PLAN` (orchestrator lines 248-264): the plan dict starts with
the detected intent and entities and no actions; when the intent's
config declares a truthy `api_endpoint`, `requires_api_call` is set and
a single action dict `{"type": "api_call", "name": intent,
"config": intent_config}` is appended — note that no top-level
`requires_auth` key is placed on the action dict. -/
def buildPlan (intent : String) (entities : List (String × JVal))
    (intent_config : Option IntentConfig) : Plan :=
  let plan : Plan :=
    { intent := some intent, entities := entities
      requires_api_call := false, actions := [] }
  match intent_config with
  | some ic =>
    if strTruthy ic.api_endpoint then
      { plan with
        requires_api_call := true
        actions := [{ type? := some "api_call", name? := some intent
                      config? := some ic, requires_auth? := none }] }
    else plan
  | none => plan

/-- Intent config with `requires_auth = True` and an `api_endpoint`,
matching the C3 scenario. -/
def icAuth : IntentConfig :=
  { name := "book_viewing", entities := ["property_id"]
    api_endpoint := some "https://api.example.com/book"
    api_method := "POST", api_headers := [], response_template := none
    requires_auth := true }

/-- The plan the orchestrator builds for `icAuth`. -/
def c3Plan : Plan := buildPlan "book_viewing" [] (some icAuth)

/-- Validation context with a safe moderation result and no auth token. -/
def c3Ctx : ValidationContext :=
  { moderation_result? := some ⟨true, []⟩, auth_token? := none
    session_id? := some "sess-1" }

/-- A freshly constructed planner with the default limits. -/
def freshPlanner : PolicyPlanner :=
  { rate_limit_per_minute := 60, rate_limit_per_hour := 1000
    require_moderation := true, request_counts := [] }

/-- Claim C3 fails on the code: for the plan built by `BUILD_PLAN` from
an `IntentConfig` with `requires_auth` true and an `api_endpoint`, and a
context without an auth token, `validate_plan` returns no violation at
all (and `is_valid = true`): `_check_authorization` reads the top-level
`requires_auth` key of the action dict, which `BUILD_PLAN` never sets
(the flag sits inside the nested `config`), so the unauthorized check
never fires on orchestrator-built plans. -/
theorem orchestrator_plan_skips_auth_check :
    icAuth.requires_auth = true ∧
    strTruthy c3Ctx.auth_token? = false ∧
    check_authorization c3Plan c3Ctx = [] ∧
    validate_plan freshPlanner "tenant-1" c3Plan c3Ctx =
      (true, [], { freshPlanner with request_counts := [("tenant-1", 1)] }) := by
  refine ⟨rfl, rfl, rfl, ?_⟩
  decide

/-! ## Config Manager (`src/services/config_manager.py`)

A domain definition file is parsed (JSON/YAML) into a raw record and
validated by the Pydantic schemas alone (`DomainConfig(**config_data)`,
line 106).  The raw records below distinguish a missing key (`none`)
from a present one; for Pydantic-`Optional` fields the inner `Option`
is the JSON `null`.  File contents are well-typed raw records: a file
whose JSON does not even type-check against a field's primitive type is
rejected by Pydantic and out of scope of the claims settled here. -/

/-- Raw intent entry of a definition file. -/
structure RawIntent where
  name? : Option String
  entities? : Option (List String)
  api_endpoint? : Option (Option String)
  api_method? : Option String
  api_headers? : Option (List (String × String))
  response_template? : Option (Option String)
  requires_auth? : Option Bool
deriving DecidableEq, Repr

/-- Raw `context_retrieval` entry of a definition file. -/
structure RawRetrieval where
  enabled? : Option Bool
  collection_name? : Option (Option String)
  top_k? : Option Int
  score_threshold? : Option Rat
deriving DecidableEq, Repr

/-- Raw domain definition record. -/
structure RawDomain where
  domain_name? : Option String
  description? : Option (Option String)
  intents? : Option (List RawIntent)
  context_retrieval? : Option RawRetrieval
  response_templates? : Option (List (String × String))
  system_prompt? : Option (Option String)
  fallback_response? : Option String
  max_turns? : Option Int
  metadata? : Option (List (String × JVal))
deriving DecidableEq, Repr

/-- Pydantic validation of one intent entry (schema lines 17-25): `name`
is the only required field, the rest default. -/
def parseIntent (r : RawIntent) : Option IntentConfig :=
  match r.name? with
  | none => none
  | some nm =>
    some
      { name := nm
        entities := r.entities?.getD []
        api_endpoint := r.api_endpoint?.getD none
        api_method := r.api_method?.getD "POST"
        api_headers := r.api_headers?.getD []
        response_template := r.response_template?.getD none
        requires_auth := r.requires_auth?.getD false }

/-- Default `ContextRetrievalConfig` (schema lines 28-33). -/
def defaultRetrieval : ContextRetrievalConfig :=
  { enabled := false, collection_name := none, top_k := 5
    score_threshold := 1/2 }

/-- Pydantic validation of the `context_retrieval` entry: every field has
a default, so validation is total on well-typed input. -/
def parseRetrieval (r : RawRetrieval) : ContextRetrievalConfig :=
  { enabled := r.enabled?.getD false
    collection_name := r.collection_name?.getD none
    top_k := r.top_k?.getD 5
    score_threshold := r.score_threshold?.getD (1/2) }

/-- Pydantic validation of every entry of the `intents` list: all must
validate for the list to validate. -/
def parseIntents : List RawIntent → Option (List IntentConfig)
  | [] => some []
  | r :: rs =>
    match parseIntent r, parseIntents rs with
    | some i, some is_ => some (i :: is_)
    | _, _ => none

/-- Pydantic validation of a whole definition (`DomainConfig(**data)`,
schema lines 36-46): `domain_name` and `intents` are required, each
intent entry must validate, and every other field defaults. -/
def parseDomain (r : RawDomain) : Option DomainConfig :=
  match r.domain_name?, r.intents? with
  | some dn, some ris =>
    (parseIntents ris).map fun ints =>
      { domain_name := dn
        description := r.description?.getD none
        intents := ints
        context_retrieval := (r.context_retrieval?.map parseRetrieval).getD defaultRetrieval
        response_templates := r.response_templates?.getD []
        system_prompt := r.system_prompt?.getD none
        fallback_response := r.fallback_response?.getD "I'm not sure how to help with that."
        max_turns := r.max_turns?.getD 50
        metadata := r.metadata?.getD [] }
  | _, _ => none

/-- `model_dump` of an intent config: every key present. -/
def dumpIntent (i : IntentConfig) : RawIntent :=
  { name? := some i.name
    entities? := some i.entities
    api_endpoint? := some i.api_endpoint
    api_method? := some i.api_method
    api_headers? := some i.api_headers
    response_template? := some i.response_template
    requires_auth? := some i.requires_auth }

/-- `model_dump` of a retrieval config. -/
def dumpRetrieval (c : ContextRetrievalConfig) : RawRetrieval :=
  { enabled? := some c.enabled
    collection_name? := some c.collection_name
    top_k? := some c.top_k
    score_threshold? := some c.score_threshold }

/-- `config.model_dump()` (line 266): every key present, nested models
dumped recursively. -/
def dumpDomain (c : DomainConfig) : RawDomain :=
  { domain_name? := some c.domain_name
    description? := some c.description
    intents? := some (c.intents.map dumpIntent)
    context_retrieval? := some (dumpRetrieval c.context_retrieval)
    response_templates? := some c.response_templates
    system_prompt? := some c.system_prompt
    fallback_response? := some c.fallback_response
    max_turns? := some c.max_turns
    metadata? := some c.metadata }

/-- The `ConfigManager` object together with its config directory: the
definition files on disk (keyed by domain name) and the in-memory
`self.configs` dict. -/
structure ConfigManagerState where
  files : List (String × RawDomain)
  configs : List (String × DomainConfig)
deriving DecidableEq, Repr

/-- `ConfigManager.load_config` (lines 67-120): read the domain's
definition file (failure when absent), validate it with the Pydantic
schema, and on success store the config; any failure returns `False`
and leaves the stored configs untouched. -/
def load_config (st : ConfigManagerState) (domain_name : String) :
    Bool × ConfigManagerState :=
  match List.lookup domain_name st.files with
  | none => (false, st)
  | some raw =>
    match parseDomain raw with
    | none => (false, st)
    | some config =>
      (true, { st with configs := insertA domain_name config st.configs })

/-- `ConfigManager.save_config` (lines 244-284) with the default JSON
format: write `config.model_dump()` to the domain's definition file and
update the in-memory config. -/
def save_config (st : ConfigManagerState) (domain_name : String)
    (config : DomainConfig) : Bool × ConfigManagerState :=
  (true,
    { files := insertA domain_name (dumpDomain config) st.files
      configs := insertA domain_name config st.configs })

/-- Validation of a dumped intent succeeds and returns the intent. -/
theorem parseIntent_dumpIntent (i : IntentConfig) :
    parseIntent (dumpIntent i) = some i := by
  cases i; rfl

/-- Validation of a dumped intent list succeeds and returns the list. -/
theorem parseIntents_dump (l : List IntentConfig) :
    parseIntents (l.map dumpIntent) = some l := by
  induction l with
  | nil => rfl
  | cons a l ih =>
    rw [List.map_cons]
    unfold parseIntents
    rw [parseIntent_dumpIntent, ih]

/-- Pydantic validation of a dumped domain config is the identity. -/
theorem parseDomain_dumpDomain (c : DomainConfig) :
    parseDomain (dumpDomain c) = some c := by
  cases c with
  | mk dn ds ints cr rt sp fb mt md =>
    simp only [parseDomain, dumpDomain, parseIntents_dump]
    rfl

/-- Claim C9: saving a `DomainConfig` to its definition file and
reloading that file yields a stored config equal to the original — in
particular its `intents`, `response_templates` and `context_retrieval`
are field-for-field equal. -/
theorem save_then_load_roundtrip (st : ConfigManagerState)
    (domain_name : String) (c : DomainConfig) :
    (load_config (save_config st domain_name c).2 domain_name).1 = true ∧
    List.lookup domain_name
      (load_config (save_config st domain_name c).2 domain_name).2.configs =
      some c := by
  unfold save_config load_config insertA
  simp [List.lookup, parseDomain_dumpDomain]

/-- An intent entry validates exactly when its `name` key is present. -/
theorem parseIntent_isSome (r : RawIntent) :
    (parseIntent r).isSome = r.name?.isSome := by
  cases h : r.name? <;> simp [parseIntent, h]

/-- An intent list validates exactly when every entry has a `name`. -/
theorem parseIntents_isSome (l : List RawIntent) :
    (parseIntents l).isSome = true ↔
      ∀ i ∈ l, i.name?.isSome = true := by
  induction l with
  | nil => simp [parseIntents]
  | cons a l ih =>
    constructor
    · intro h
      unfold parseIntents at h
      cases ha : parseIntent a with
      | none => rw [ha] at h; simp at h
      | some b =>
        rw [ha] at h
        cases hm : parseIntents l with
        | none => rw [hm] at h; simp at h
        | some bs =>
          intro i hi
          rcases List.mem_cons.mp hi with rfl | hil
          · rw [← parseIntent_isSome, ha]; rfl
          · exact ih.mp (by rw [hm]; rfl) i hil
    · intro h
      unfold parseIntents
      have ha : (parseIntent a).isSome = true := by
        rw [parseIntent_isSome]; exact h a (List.mem_cons_self a l)
      have hl : (parseIntents l).isSome = true :=
        ih.mpr (fun i hi => h i (List.mem_cons_of_mem a hi))
      cases hpa : parseIntent a with
      | none => rw [hpa] at ha; simp at ha
      | some b =>
        cases hpl : parseIntents l with
        | none => rw [hpl] at hl; simp at hl
        | some bs => rfl

/-- A raw definition validates exactly when `domain_name` is present and
`intents` is a present list of named entries. -/
theorem parseDomain_isSome (r : RawDomain) :
    (parseDomain r).isSome = true ↔
      (r.domain_name?.isSome = true ∧
        ∃ l, r.intents? = some l ∧ ∀ i ∈ l, i.name?.isSome = true) := by
  cases hd : r.domain_name? with
  | none => simp [parseDomain, hd]
  | some dn =>
    cases hi : r.intents? with
    | none => simp [parseDomain, hd, hi]
    | some ris =>
      simp only [parseDomain, hd, hi, Option.isSome_map', Option.isSome_some,
        true_and, Option.some.injEq]
      rw [parseIntents_isSome]
      constructor
      · intro h
        exact ⟨ris, rfl, h⟩
      · rintro ⟨l, hl, h⟩
        cases hl
        exact h

/-- Claim C6 (amended): with the domain's definition file present,
`load_config` succeeds iff the definition passes the Pydantic schema —
`domain_name` present and an `intents` list whose entries all carry a
`name`; no further validation is applied, and on failure nothing is
stored (the state is unchanged). -/
theorem load_config_schema_validation (st : ConfigManagerState)
    (dn : String) (raw : RawDomain)
    (h : List.lookup dn st.files = some raw) :
    ((load_config st dn).1 = true ↔
      (raw.domain_name?.isSome = true ∧
        ∃ l, raw.intents? = some l ∧ ∀ i ∈ l, i.name?.isSome = true)) ∧
    ((load_config st dn).1 = false → load_config st dn = (false, st)) := by
  have hload : load_config st dn =
      match parseDomain raw with
      | none => (false, st)
      | some config =>
        (true, { st with configs := insertA dn config st.configs }) := by
    unfold load_config
    rw [h]
  cases hp : parseDomain raw with
  | none =>
    rw [hp] at hload
    rw [hload]
    constructor
    · simp only [Bool.false_eq_true, false_iff]
      intro hcond
      have h2 := (parseDomain_isSome raw).mpr hcond
      rw [hp] at h2
      simp at h2
    · intro _
      rfl
  | some cfg =>
    rw [hp] at hload
    rw [hload]
    constructor
    · simp only [true_iff]
      have h2 : (parseDomain raw).isSome = true := by rw [hp]; rfl
      exact (parseDomain_isSome raw).mp h2
    · intro hfalse
      simp at hfalse

/-- A raw intent entry carrying only a `name`. -/
def rawIntentNamed (nm : String) : RawIntent :=
  { name? := some nm, entities? := none, api_endpoint? := none
    api_method? := none, api_headers? := none, response_template? := none
    requires_auth? := none }

/-- A definition with duplicate intent names, `top_k = 0` and
`score_threshold = 2`: it violates every retrieval/uniqueness condition
of claim C6 yet passes the Pydantic schema. -/
def c6Raw : RawDomain :=
  { domain_name? := some "bad_domain", description? := none
    intents? := some [rawIntentNamed "greet", rawIntentNamed "greet"]
    context_retrieval? := some
      { enabled? := some true, collection_name? := some (some "kb")
        top_k? := some 0, score_threshold? := some 2 }
    response_templates? := none, system_prompt? := none
    fallback_response? := none, max_turns? := none, metadata? := none }

/-- Config-store state whose config directory holds only `c6Raw`. -/
def c6State : ConfigManagerState :=
  { files := [("bad_domain", c6Raw)], configs := [] }

/-- The config `load_config` produces from `c6Raw`. -/
def c6Cfg : DomainConfig :=
  { domain_name := "bad_domain", description := none
    intents :=
      [{ name := "greet", entities := [], api_endpoint := none
         api_method := "POST", api_headers := [], response_template := none
         requires_auth := false },
       { name := "greet", entities := [], api_endpoint := none
         api_method := "POST", api_headers := [], response_template := none
         requires_auth := false }]
    context_retrieval :=
      { enabled := true, collection_name := some "kb", top_k := 0
        score_threshold := 2 }
    response_templates := [], system_prompt := none
    fallback_response := "I'm not sure how to help with that."
    max_turns := 50, metadata := [] }

/-- Counterexample to C6 as stated: `load_config` accepts and stores the
definition `c6Raw` even though its intent names are not pairwise
distinct, its `top_k` is not positive and its `score_threshold` is not
in `[0,1]`. -/
theorem load_config_accepts_invalid_cex :
    load_config c6State "bad_domain" =
      (true, { c6State with configs := [("bad_domain", c6Cfg)] }) ∧
    ¬ (c6Cfg.intents.map IntentConfig.name).Nodup ∧
    ¬ 0 < c6Cfg.context_retrieval.top_k ∧
    ¬ c6Cfg.context_retrieval.score_threshold ≤ 1 := by
  refine ⟨by decide, by decide, by decide, by decide⟩

/-- Witness for the amended C6 at the concrete state `c6State`. -/
theorem load_config_schema_validation_witness :
    List.lookup "bad_domain" c6State.files = some c6Raw ∧
    (((load_config c6State "bad_domain").1 = true ↔
      (c6Raw.domain_name?.isSome = true ∧
        ∃ l, c6Raw.intents? = some l ∧ ∀ i ∈ l, i.name?.isSome = true)) ∧
    ((load_config c6State "bad_domain").1 = false →
      load_config c6State "bad_domain" = (false, c6State))) :=
  ⟨rfl, load_config_schema_validation c6State "bad_domain" c6Raw rfl⟩

/-! ## Data Adapter (`src/services/data_adapter.py`)

`call_api` (lines 44-145) is decorated with tenacity
`@retry(stop=stop_after_attempt(3), wait=wait_exponential(...))`, which
re-invokes the wrapped coroutine only when it RAISES.  The body of
`call_api`, however, catches `httpx.HTTPStatusError`,
`httpx.TimeoutException` and every other `Exception` internally and
returns a structured failure dict.  The underlying HTTP transport is
modelled as a function from the attempt number to what that attempt
does; the wait schedule never matters because a retry must be triggered
first. -/

/-- What one underlying HTTP attempt does: a response arrives with a
status and JSON body, the request times out, or some other exception is
raised. -/
inductive TransportOutcome where
  | response (status : Nat) (body : List (String × JVal))
  | timeout
  | failure (msg : String)
deriving DecidableEq, Repr

/-- The structured result dict of `call_api`.  A success dict carries no
`error`/`error_type` keys and a failure dict no `data` key; absent keys
are `none`/`[]` here.  `response_time` is wall-clock and not modelled. -/
structure ApiResult where
  success : Bool
  status_code : Nat
  data : List (String × JVal)
  error : Option String
  error_type : Option String
deriving DecidableEq, Repr

/-- The body of `call_api` (lines 71-145): `raise_for_status` raises for
status ≥ 400, and the three `except` clauses convert every exception
into a returned failure dict — the body never raises.  The `error` text
of an HTTP error is httpx's rendering of the exception; only its
presence matters here. -/
def call_api_body (t : TransportOutcome) : ApiResult :=
  match t with
  | .response status body =>
    if 400 ≤ status then
      { success := false, status_code := status, data := []
        error := some ("HTTP status " ++ toString status)
        error_type := some "http_error" }
    else
      { success := true, status_code := status, data := body
        error := none, error_type := none }
  | .timeout =>
    { success := false, status_code := 408, data := []
      error := some "Request timeout", error_type := some "timeout" }
  | .failure msg =>
    { success := false, status_code := 500, data := []
      error := some msg, error_type := some "unknown" }

/-- Tenacity's retry driver: run attempt `attempt`; a raised exception
consumes one unit of remaining fuel and retries (after the wait), and
with no fuel left the exception is re-raised.  Returns the outcome and
the number of attempts actually executed. -/
def retryLoop {α : Type} (f : Nat → Except String α) :
    Nat → Nat → Except String α × Nat
  | attempt, fuel =>
    match f attempt with
    | .ok a => (.ok a, attempt)
    | .error e =>
      match fuel with
      | 0 => (.error e, attempt)
      | fuel' + 1 => retryLoop f (attempt + 1) fuel'

/-- `call_api` as callers see it: the tenacity wrapper
(`stop_after_attempt(3)` = 1 initial attempt plus at most 2 retries)
around a body that catches everything. -/
def call_api (transport : Nat → TransportOutcome) :
    Except String ApiResult × Nat :=
  retryLoop (fun n => .ok (call_api_body (transport n))) 1 2

/-- Claim C5 fails on the code: for every transport behavior — in
particular one whose first attempt hits a transient timeout — `call_api`
executes exactly one attempt and returns that attempt's converted
result; the internal `except` clauses swallow the timeout/HTTP-error
exceptions before tenacity can see them, so no retry and no backoff ever
happen. -/
theorem call_api_never_retries :
    (∀ transport, call_api transport = (.ok (call_api_body (transport 1)), 1)) ∧
    call_api (fun _ => .timeout) =
      (.ok { success := false, status_code := 408, data := []
             error := some "Request timeout", error_type := some "timeout" },
        1) := by
  constructor
  · intro transport
    rfl
  · rfl

/-! ## Pipeline Orchestrator (`src/services/orchestrator.py`)

`process_text` (lines 157-414) is one `try` block running the pipeline
steps in order, with a single `except Exception` handler at the end.
Each collaborator call's outcome for this request is supplied as data
(an `Except` value: `.error` is a raised Python exception).  The
embedding returns the result together with the trace of collaborator
steps that actually executed, and tracks the Python local variable
`domain_config`, which is assigned only at line 217 — the `except`
handler dereferences it at line 408, raising `UnboundLocalError` when
the exception predates the assignment. -/

/-- The pipeline's collaborator calls, in source order. -/
inductive Step where
  | createSession | moderate | logModeration | nlu | retrieve | loadHistory
  | validatePlan | executeAction | logApiCall | llmGenerate
  | persistUserMsg | persistAssistantMsg | persistDb
  | logRequest | logResponse | logError
deriving DecidableEq, Repr

/-- A raised Python exception: an ordinary exception with its message,
or an `UnboundLocalError` for the named local variable. -/
inductive PyErr where
  | exc (msg : String)
  | unboundLocal (name : String)
deriving DecidableEq, Repr

/-- Python's message for an `UnboundLocalError`, and `str(e)` otherwise. -/
def errMsg : PyErr → String
  | .exc m => m
  | .unboundLocal n => "local variable '" ++ n ++ "' referenced before assignment"

/-- `nlu.parse` result as consumed by the orchestrator (lines 210-212):
`nlu_result["intent"]["name"]` and `nlu_result["slots"]`. -/
structure NLUResult where
  intentName : String
  slots : List (String × JVal)
deriving DecidableEq, Repr

/-- The metadata dict attached to a `ProcessingResult`, one shape per
terminal branch (lines 206, 282, 390-394, 413).  The wall-clock
`response_time` entry of the success shape is not modelled. -/
inductive RespMetadata where
  | moderation (m : ModerationResult)
  | violations (messages : List String)
  | success (session_id : String) (retrieved_context_count : Nat)
  | error (msg : String)
deriving DecidableEq, Repr

/-- `ProcessingResult` (orchestrator lines 23-40); `audio_response` stays
`none` on the text path. -/
structure ProcessingResult where
  text_response : String
  audio_response : Option String
  intent : Option String
  entities : Option (List (String × JVal))
  api_response : Option ApiResult
  metadata : RespMetadata
deriving DecidableEq, Repr

/-- The behavior of every collaborator call for one request.  Pure
lookups (`get_config`, `get_intent_config`, `get_system_prompt`) cannot
raise (they catch internally); every awaited call may. -/
structure Collab where
  createSession : Except PyErr String
  moderate : Except PyErr ModerationResult
  logModeration : Except PyErr Unit
  nluParse : Except PyErr NLUResult
  getConfig : Option DomainConfig
  qdrantSearch : Except PyErr (List String)
  getHistory : Except PyErr (List StoredMessage)
  getSystemPrompt : String
  getIntentConfig : String → Option IntentConfig
  validatePlan : Plan → Except PyErr (Bool × List PolicyViolation)
  callWithConfig : Except PyErr ApiResult
  logApiCall : Except PyErr Unit
  llmGenerate : Except PyErr String
  addMessageUser : Except PyErr Bool
  addMessageAssistant : Except PyErr Bool
  postgresSave : Except PyErr Unit
  logRequest : Except PyErr Unit
  logResponse : Except PyErr Unit
  logError : Except PyErr Unit

/-- Trace of executed collaborator steps. -/
abbrev StepTrace := List Step

/-- Outcome of the `try` body: result or raised exception, the executed
steps, and the state of the local `domain_config` (`none` = still
unbound, `some dc?` = assigned the lookup's result). -/
abbrev BodyOut := Except PyErr ProcessingResult × StepTrace × Option (Option DomainConfig)

/-- The `RESPOND_BLOCKED` result (lines 203-207). -/
def blockedResult (m : ModerationResult) : ProcessingResult :=
  { text_response := "I'm sorry, but I cannot process that request."
    audio_response := none
    intent := some "moderation_failed"
    entities := none
    api_response := none
    metadata := .moderation m }

/-- The `RESPOND_REJECTED` result (lines 278-283). -/
def rejectedResult (intent : String) (entities : List (String × JVal))
    (violations : List PolicyViolation) : ProcessingResult :=
  { text_response := "I'm unable to complete that request at this time."
    audio_response := none
    intent := some intent
    entities := some entities
    api_response := none
    metadata := .violations (violations.map (·.message)) }

/-- The success result (lines 385-395). -/
def successResult (response_text intent : String)
    (entities : List (String × JVal)) (api_response : Option ApiResult)
    (sid : String) (retrieved : List String) : ProcessingResult :=
  { text_response := response_text
    audio_response := none
    intent := some intent
    entities := some entities
    api_response := api_response
    metadata := .success sid retrieved.length }

/-- Step 9 persistence and analytics (lines 339-381): two session
appends, the Postgres write, then the two analytics events; afterwards
the success result is returned. -/
def pt_persist (c : Collab) (sid intent : String)
    (entities : List (String × JVal)) (api_response : Option ApiResult)
    (retrieved : List String) (response_text : String) (tr : StepTrace)
    (dc? : Option DomainConfig) : BodyOut :=
  let tr := tr ++ [.persistUserMsg]
  match c.addMessageUser with
  | .error e => (.error e, tr, some dc?)
  | .ok _ =>
    let tr := tr ++ [.persistAssistantMsg]
    match c.addMessageAssistant with
    | .error e => (.error e, tr, some dc?)
    | .ok _ =>
      let tr := tr ++ [.persistDb]
      match c.postgresSave with
      | .error e => (.error e, tr, some dc?)
      | .ok _ =>
        let tr := tr ++ [.logRequest]
        match c.logRequest with
        | .error e => (.error e, tr, some dc?)
        | .ok _ =>
          let tr := tr ++ [.logResponse]
          match c.logResponse with
          | .error e => (.error e, tr, some dc?)
          | .ok _ =>
            (.ok (successResult response_text intent entities api_response
              sid retrieved), tr, some dc?)

/-- Step 8 generation (lines 302-337): the prompt text assembled from
context, user text, intent/entities or the API result is opaque to the
verified properties; the language model's reply for this request is the
collaborator's outcome. -/
def pt_generate (c : Collab) (sid intent : String)
    (entities : List (String × JVal)) (api_response : Option ApiResult)
    (retrieved : List String) (tr : StepTrace) (dc? : Option DomainConfig) :
    BodyOut :=
  let tr := tr ++ [.llmGenerate]
  match c.llmGenerate with
  | .error e => (.error e, tr, some dc?)
  | .ok response_text =>
    pt_persist c sid intent entities api_response retrieved response_text tr dc?

/-- Step 7 action execution (lines 285-300): only when the plan requires
an API call and an intent config exists; the adapter result (success or
failure) is passed forward and the API-call analytics event is logged. -/
def pt_execute (c : Collab) (sid intent : String)
    (entities : List (String × JVal)) (plan : Plan)
    (intent_config : Option IntentConfig) (retrieved : List String)
    (tr : StepTrace) (dc? : Option DomainConfig) : BodyOut :=
  if plan.requires_api_call && intent_config.isSome then
    let tr := tr ++ [.executeAction]
    match c.callWithConfig with
    | .error e => (.error e, tr, some dc?)
    | .ok api_response =>
      let tr := tr ++ [.logApiCall]
      match c.logApiCall with
      | .error e => (.error e, tr, some dc?)
      | .ok _ =>
        pt_generate c sid intent entities (some api_response) retrieved tr dc?
  else
    pt_generate c sid intent entities none retrieved tr dc?

/-- Steps 5-6, plan build and validation (lines 248-283): the plan is
built by `buildPlan`; an invalid plan short-circuits to
`RESPOND_REJECTED`. -/
def pt_validate (c : Collab) (sid intent : String)
    (entities : List (String × JVal)) (retrieved : List String)
    (tr : StepTrace) (dc? : Option DomainConfig) : BodyOut :=
  let intent_config := c.getIntentConfig intent
  let plan := buildPlan intent entities intent_config
  let tr := tr ++ [.validatePlan]
  match c.validatePlan plan with
  | .error e => (.error e, tr, some dc?)
  | .ok (is_valid, violations) =>
    if is_valid then
      pt_execute c sid intent entities plan intent_config retrieved tr dc?
    else
      (.ok (rejectedResult intent entities violations), tr, some dc?)

/-- Step 4, history fetch (line 230). -/
def pt_history (c : Collab) (sid intent : String)
    (entities : List (String × JVal)) (retrieved : List String)
    (tr : StepTrace) (dc? : Option DomainConfig) : BodyOut :=
  let tr := tr ++ [.loadHistory]
  match c.getHistory with
  | .error e => (.error e, tr, some dc?)
  | .ok _history =>
    pt_validate c sid intent entities retrieved tr dc?

/-- Step 3, config lookup and retrieval (lines 216-227): this is where
the local `domain_config` is assigned; retrieval runs only when the
domain config exists and enables it, and courses on with the retrieved
context texts. -/
def pt_retrieve (c : Collab) (sid intent : String)
    (entities : List (String × JVal)) (tr : StepTrace) : BodyOut :=
  match c.getConfig with
  | some dc =>
    if dc.context_retrieval.enabled then
      let tr := tr ++ [.retrieve]
      match c.qdrantSearch with
      | .error e => (.error e, tr, some (some dc))
      | .ok retrieved => pt_history c sid intent entities retrieved tr (some dc)
    else
      pt_history c sid intent entities [] tr (some dc)
  | none =>
    pt_history c sid intent entities [] tr none

/-- Step 2, NLU parse (lines 209-212). -/
def pt_nlu (c : Collab) (sid : String) (tr : StepTrace) : BodyOut :=
  let tr := tr ++ [.nlu]
  match c.nluParse with
  | .error e => (.error e, tr, none)
  | .ok nr => pt_retrieve c sid nr.intentName nr.slots tr

/-- Step 1, moderation and its analytics event (lines 192-207); an
unsafe result returns `RESPOND_BLOCKED` before any later step runs. -/
def pt_moderate (c : Collab) (sid : String) (tr : StepTrace) : BodyOut :=
  let tr := tr ++ [.moderate]
  match c.moderate with
  | .error e => (.error e, tr, none)
  | .ok m =>
    let tr := tr ++ [.logModeration]
    match c.logModeration with
    | .error e => (.error e, tr, none)
    | .ok _ =>
      if m.is_safe then pt_nlu c sid tr
      else (.ok (blockedResult m), tr, none)

/-- The `try` body of `process_text` (lines 181-395): session resolution
(lines 185-190) then the pipeline.  The raw `text` itself only feeds the
opaque prompt and the persisted message content. -/
def processTextBody (c : Collab) (_text : String)
    (session_id? : Option String) : BodyOut :=
  match session_id? with
  | some sid => pt_moderate c sid []
  | none =>
    let tr := [Step.createSession]
    match c.createSession with
    | .error e => (.error e, tr, none)
    | .ok sid => pt_moderate c sid tr

/-- `process_text` (lines 157-414): the `try` body wrapped in the single
`except Exception` handler (lines 397-414), which logs the error to
analytics and then evaluates `if domain_config:` — an
`UnboundLocalError` when the exception was raised before line 217,
otherwise the domain fallback text (or the generic one when the config
lookup returned `None`). -/
def process_text (c : Collab) (text : String) (session_id? : Option String) :
    Except PyErr ProcessingResult × StepTrace :=
  match processTextBody c text session_id? with
  | (.ok r, tr, _) => (.ok r, tr)
  | (.error e, tr, dcv) =>
    let tr := tr ++ [Step.logError]
    match c.logError with
    | .error e2 => (.error e2, tr)
    | .ok _ =>
      match dcv with
      | none => (.error (.unboundLocal "domain_config"), tr)
      | some dc? =>
        let fallback :=
          match dc? with
          | some dc => dc.fallback_response
          | none => "I'm sorry, I encountered an error processing your request."
        (.ok { text_response := fallback, audio_response := none
               intent := none, entities := none, api_response := none
               metadata := .error (errMsg e) }, tr)

/-- Claim C2: whenever moderation flags the input unsafe (and neither the
moderation call nor its analytics event raises), `process_text` returns
the blocked result — whose intent is exactly `"moderation_failed"` —
and no NLU, retrieval, plan-validation, external-action, LLM-generation
or persistence step executes. -/
theorem process_text_moderation_blocks (c : Collab) (text sid : String)
    (m : ModerationResult) (hm : c.moderate = .ok m)
    (hflag : m.is_safe = false) (hlog : c.logModeration = .ok ()) :
    process_text c text (some sid) =
      (.ok (blockedResult m), [Step.moderate, Step.logModeration]) ∧
    (blockedResult m).intent = some "moderation_failed" ∧
    Step.nlu ∉ ([Step.moderate, Step.logModeration] : StepTrace) ∧
    Step.retrieve ∉ ([Step.moderate, Step.logModeration] : StepTrace) ∧
    Step.validatePlan ∉ ([Step.moderate, Step.logModeration] : StepTrace) ∧
    Step.executeAction ∉ ([Step.moderate, Step.logModeration] : StepTrace) ∧
    Step.llmGenerate ∉ ([Step.moderate, Step.logModeration] : StepTrace) ∧
    Step.persistUserMsg ∉ ([Step.moderate, Step.logModeration] : StepTrace) ∧
    Step.persistAssistantMsg ∉ ([Step.moderate, Step.logModeration] : StepTrace) ∧
    Step.persistDb ∉ ([Step.moderate, Step.logModeration] : StepTrace) := by
  have hbody : processTextBody c text (some sid) =
      (.ok (blockedResult m), [Step.moderate, Step.logModeration], none) := by
    unfold processTextBody pt_moderate
    simp [hm, hlog, hflag]
  refine ⟨?_, rfl, by decide, by decide, by decide, by decide, by decide,
    by decide, by decide, by decide⟩
  unfold process_text
  rw [hbody]

/-- A typical loaded domain config (retrieval disabled), used by the
concrete collaborator instantiations below. -/
def dcSample : DomainConfig :=
  { domain_name := "real_estate", description := none, intents := []
    context_retrieval := defaultRetrieval, response_templates := []
    system_prompt := some "You are a helpful real estate assistant."
    fallback_response := "I'm sorry, I'm having trouble right now. Please try again."
    max_turns := 50, metadata := [] }

/-- Collaborators that all succeed: the happy path of one request. -/
def cOk : Collab :=
  { createSession := .ok "new-sess"
    moderate := .ok { is_safe := true, flagged_categories := [] }
    logModeration := .ok ()
    nluParse := .ok { intentName := "greet", slots := [] }
    getConfig := some dcSample
    qdrantSearch := .ok []
    getHistory := .ok []
    getSystemPrompt := "You are a helpful real estate assistant."
    getIntentConfig := fun _ => none
    validatePlan := fun _ => .ok (true, [])
    callWithConfig := .ok { success := true, status_code := 200, data := []
                            error := none, error_type := none }
    logApiCall := .ok ()
    llmGenerate := .ok "Hello! How can I help you today?"
    addMessageUser := .ok true
    addMessageAssistant := .ok true
    postgresSave := .ok ()
    logRequest := .ok ()
    logResponse := .ok ()
    logError := .ok () }

/-- An unsafe moderation verdict. -/
def mUnsafe : ModerationResult := { is_safe := false, flagged_categories := ["violence"] }

/-- Collaborators whose moderation flags the input unsafe. -/
def cBlocked : Collab := { cOk with moderate := .ok mUnsafe }

/-- Witness for C2 at the concrete collaborator `cBlocked`. -/
theorem process_text_moderation_blocks_witness :
    (cBlocked.moderate = .ok mUnsafe ∧ mUnsafe.is_safe = false ∧
      cBlocked.logModeration = .ok ()) ∧
    (process_text cBlocked "bad text" (some "sess-1") =
      (.ok (blockedResult mUnsafe), [Step.moderate, Step.logModeration]) ∧
    (blockedResult mUnsafe).intent = some "moderation_failed" ∧
    Step.nlu ∉ ([Step.moderate, Step.logModeration] : StepTrace) ∧
    Step.retrieve ∉ ([Step.moderate, Step.logModeration] : StepTrace) ∧
    Step.validatePlan ∉ ([Step.moderate, Step.logModeration] : StepTrace) ∧
    Step.executeAction ∉ ([Step.moderate, Step.logModeration] : StepTrace) ∧
    Step.llmGenerate ∉ ([Step.moderate, Step.logModeration] : StepTrace) ∧
    Step.persistUserMsg ∉ ([Step.moderate, Step.logModeration] : StepTrace) ∧
    Step.persistAssistantMsg ∉ ([Step.moderate, Step.logModeration] : StepTrace) ∧
    Step.persistDb ∉ ([Step.moderate, Step.logModeration] : StepTrace)) :=
  ⟨⟨rfl, rfl, rfl⟩,
    process_text_moderation_blocks cBlocked "bad text" "sess-1" mUnsafe rfl rfl rfl⟩

/-- Collaborators whose moderation call itself raises an exception. -/
def cModerateRaises : Collab :=
  { cOk with moderate := .error (.exc "moderation model crashed") }

/-- Collaborators whose LLM generation raises an exception (all earlier
steps succeed, so `domain_config` is assigned by then). -/
def cLlmRaises : Collab :=
  { cOk with llmGenerate := .error (.exc "llm backend down") }

/-- Claim C1 fails on the code: when the exception is raised in step 2
(the moderation call), the `except` handler's `if domain_config:`
dereferences a local that is only assigned in step 3, so `process_text`
raises `UnboundLocalError` to its caller instead of returning the
degraded fallback result.  For an exception raised after the assignment
(here: LLM generation), the handler does return the domain's configured
fallback text, showing the intended degradation works only from step 3
onwards. -/
theorem process_text_propagates_raw_exception :
    process_text cModerateRaises "hello" (some "sess-1") =
      (.error (.unboundLocal "domain_config"),
        [Step.moderate, Step.logError]) ∧
    process_text cLlmRaises "hello" (some "sess-1") =
      (.ok { text_response := dcSample.fallback_response
             audio_response := none, intent := none, entities := none
             api_response := none, metadata := .error "llm backend down" },
        [Step.moderate, Step.logModeration, Step.nlu, Step.loadHistory,
         Step.validatePlan, Step.llmGenerate, Step.logError]) :=
  ⟨rfl, rfl⟩

end VoicePlatform
